import Mathlib

set_option linter.unusedVariables false

/-!
Shallow embedding of the `nest-square` library (a NestJS wrapper around the
Square SDK) and proofs of the specification claims about it.

The embedding follows `src/nest-square.service.ts` and
`src/nest-square.config.ts`.  External SDK calls (`obtainToken`,
`listCatalog`, `createCatalogImage`) are modelled as abstract functions
supplied as parameters; asynchronous calls that may fail are modelled as
`Except SquareError` results indexed by the attempt number, and each call to
an external endpoint is additionally indexed by the call number so that the
server may answer differently over time.
-/

namespace NestSquare

/-- Errors raised by the wrapped client function: either a vendor `ApiError`
carrying an HTTP status code and a body, or any other error. -/
inductive SquareError where
  | api (statusCode : Nat) (body : String)
  | other (message : String)
deriving DecidableEq

/-- What `pRetryOrThrow` can throw to its caller: an
`InternalServerErrorException` wrapping the original error, or an error
rethrown unchanged. -/
inductive ThrownError where
  | internalServerError (cause : SquareError)
  | raw (cause : SquareError)
deriving DecidableEq

/-- `HttpStatus.INTERNAL_SERVER_ERROR` from `@nestjs/common`. -/
def HttpStatus_INTERNAL_SERVER_ERROR : Nat := 500

/-- `HttpStatus.TOO_MANY_REQUESTS` from `@nestjs/common`. -/
def HttpStatus_TOO_MANY_REQUESTS : Nat := 429

/-- The `onFailedAttempt` callback passed to `p-retry` by
`NestSquareService.pRetryOrThrow` (service lines 115-128).  `some thrown`
means the callback throws `thrown`, aborting the retry loop; `none` means it
returns normally and `p-retry` goes on.  `retriesLeft` is the count that
`p-retry` decorates the error with. -/
def onFailedAttempt (error : SquareError) (retriesLeft : Nat) : Option ThrownError :=
  match error with
  | SquareError.api statusCode body =>
    let isRetryable : Bool :=
      decide (HttpStatus_INTERNAL_SERVER_ERROR ≤ statusCode) ||
        statusCode == HttpStatus_TOO_MANY_REQUESTS
    if !isRetryable || retriesLeft == 0 then
      some (ThrownError.internalServerError (SquareError.api statusCode body))
    else
      none
  | SquareError.other _ => some (ThrownError.raw error)

/-- `p-retry`'s default `retries` option (no `retries` is passed in the
service, so the default 10 applies). -/
def pRetryRetries : Nat := 10

/-- The `p-retry` driver loop: run attempt `attemptNumber` of `fn`; on
failure call `onFailedAttempt` with the decorated `retriesLeft`; if the
callback throws, reject with what it threw; otherwise retry while retries
remain, and reject with the last error once they are exhausted.
At attempt `n` (1-based) `retriesLeft = retries - (n - 1)`, so the loop is
structural in `retriesLeft`. -/
def pRetryGo {α : Type} (fn : Nat → Except SquareError α) :
    Nat → Nat → Except ThrownError α
  | attemptNumber, retriesLeft =>
    match fn attemptNumber with
    | Except.ok value => Except.ok value
    | Except.error error =>
      match onFailedAttempt error retriesLeft with
      | some thrown => Except.error thrown
      | none =>
        match retriesLeft with
        | 0 => Except.error (ThrownError.raw error)
        | rl + 1 => pRetryGo fn (attemptNumber + 1) rl

/-- `NestSquareService.pRetryOrThrow`: `pRetry(fn, { onFailedAttempt })`
with the default retry count, starting at attempt 1. -/
def pRetryOrThrow {α : Type} (fn : Nat → Except SquareError α) : Except ThrownError α :=
  pRetryGo fn 1 pRetryRetries

/-- The configuration record (`NestSquareConfigType`). -/
structure NestSquareConfigType where
  clientEnvironment : String
  oauthClientId : String
  oauthClientSecret : String
deriving DecidableEq

/-- The Square `Client`, reduced to the data the service puts into it:
the optional access token and the environment string. -/
structure Client where
  accessToken : Option String
  environment : String
deriving DecidableEq

/-- The service: it holds the injected configuration record (the logger
carries no data relevant to any claim). -/
structure NestSquareService where
  config : NestSquareConfigType
deriving DecidableEq

/-- `NestSquareService.client`: builds a new Square client from the optional
access token and the configured environment.  Methods return the service
state alongside their value so that (absence of) mutation of the injected
configuration is expressible. -/
def NestSquareService.client (svc : NestSquareService) (accessToken : Option String) :
    Client × NestSquareService :=
  ({ accessToken := accessToken, environment := svc.config.clientEnvironment }, svc)

/-- `NestSquareService.retryOrThrow`: runs `clientFn` on a freshly built
client under the retry wrapper. -/
def NestSquareService.retryOrThrow {α : Type} (svc : NestSquareService)
    (accessToken : String) (clientFn : Client → Nat → Except SquareError α) :
    Except ThrownError α × NestSquareService :=
  (pRetryOrThrow (fun attempt => clientFn (svc.client (some accessToken)).1 attempt), svc)

/-- The envelope the SDK returns for OAuth calls (`ApiResponse<T>`), reduced
to the status code and the parsed `result`. -/
structure ApiResponse (α : Type) where
  statusCode : Nat
  result : α
deriving DecidableEq

/-- The body of `oAuthApi.obtainToken`, with the fields the service sets. -/
structure ObtainTokenRequest where
  clientId : String
  clientSecret : String
  grantType : String
  code : Option String
  refreshToken : Option String
deriving DecidableEq

/-- `NestSquareService.retryObtainTokenOrThrow`: one `obtainToken` SDK call
with grant type `authorization_code`, under the retry wrapper.  The SDK call
itself is the abstract parameter `obtainToken` (client, request, attempt). -/
def NestSquareService.retryObtainTokenOrThrow {R : Type} (svc : NestSquareService)
    (obtainToken : Client → ObtainTokenRequest → Nat → Except SquareError (ApiResponse R))
    (code : String) : Except ThrownError (ApiResponse R) × NestSquareService :=
  (pRetryOrThrow (fun attempt =>
    obtainToken (svc.client none).1
      { clientId := svc.config.oauthClientId,
        clientSecret := svc.config.oauthClientSecret,
        grantType := "authorization_code",
        code := some code,
        refreshToken := none } attempt), svc)

/-- `NestSquareService.retryRefreshTokenOrThrow`: one `obtainToken` SDK call
with grant type `refresh_token`, under the retry wrapper. -/
def NestSquareService.retryRefreshTokenOrThrow {R : Type} (svc : NestSquareService)
    (obtainToken : Client → ObtainTokenRequest → Nat → Except SquareError (ApiResponse R))
    (refreshToken : String) : Except ThrownError (ApiResponse R) × NestSquareService :=
  (pRetryOrThrow (fun attempt =>
    obtainToken (svc.client none).1
      { clientId := svc.config.oauthClientId,
        clientSecret := svc.config.oauthClientSecret,
        grantType := "refresh_token",
        code := none,
        refreshToken := some refreshToken } attempt), svc)

/-- One `listCatalog` response body: the optional `objects` array and the
optional pagination `cursor`.  `γ` is the (opaque) `CatalogObject` type. -/
structure ListCatalogPage (γ : Type) where
  objects : Option (List γ)
  cursor : Option String
deriving DecidableEq

/-- Ghost record of one `listCatalog` request as issued by the service: the
cursor argument and the comma-joined types string. -/
structure CatalogRequest where
  cursor : Option String
  types : String
deriving DecidableEq

/-- The `while (cursor !== undefined)` loop of `accumulateCatalogOrThrow`
(service lines 156-162).  `listCatalog i c t a` is the abstract SDK call:
call number `i`, cursor `c`, types `t`, attempt `a`; each call runs under
`pRetryOrThrow` exactly as in the source.  `fuel` bounds the number of loop
iterations: the result is `none` when the loop has not terminated within
`fuel` iterations.  `requests` is a ghost log of the requests issued so far.
-/
def accumulateCatalogGo {γ : Type}
    (listCatalog : Nat → Option String → String → Nat → Except SquareError (ListCatalogPage γ))
    (theTypes : String) :
    Nat → Nat → Option String → List γ → List CatalogRequest →
    Option (Except ThrownError (List CatalogRequest × List γ))
  | _, _, none, catalogObjects, requests =>
    some (Except.ok (requests, catalogObjects))
  | 0, _, some _, _, _ => none
  | fuel + 1, i, some c, catalogObjects, requests =>
    match pRetryOrThrow (fun attempt => listCatalog i (some c) theTypes attempt) with
    | Except.error e => some (Except.error e)
    | Except.ok resp =>
      accumulateCatalogGo listCatalog theTypes fuel (i + 1) resp.cursor
        (catalogObjects ++ resp.objects.getD [])
        (requests ++ [{ cursor := some c, types := theTypes }])

/-- `NestSquareService.accumulateCatalogOrThrow`: joins the types with
commas, issues a first `listCatalog` request with an undefined cursor, then
pages until the cursor is undefined, concatenating the `objects` arrays.
Returns the ghost request log together with the accumulated objects. -/
def NestSquareService.accumulateCatalogOrThrow {γ : Type} (svc : NestSquareService)
    (listCatalog : Client → Nat → Option String → String → Nat → Except SquareError (ListCatalogPage γ))
    (accessToken : String) (types : List String) (fuel : Nat) :
    Option (Except ThrownError (List CatalogRequest × List γ)) × NestSquareService :=
  let client := (svc.client (some accessToken)).1
  let theTypes := String.intercalate "," types
  (match pRetryOrThrow (fun attempt => listCatalog client 0 none theTypes attempt) with
   | Except.error e => some (Except.error e)
   | Except.ok resp =>
     accumulateCatalogGo (fun i c t a => listCatalog client i c t a) theTypes fuel 1
       resp.cursor (resp.objects.getD []) [{ cursor := none, types := theTypes }],
   svc)

/-- `NestSquareFile` (its module is not under `src/`; the shape is the one
the service uses: a byte buffer and a mimetype). -/
structure NestSquareFile where
  buffer : List Nat
  mimetype : String
deriving DecidableEq

/-- The SDK `FileWrapper`: a byte stream plus a content type. -/
structure FileWrapper where
  stream : List Nat
  contentType : String
deriving DecidableEq

/-- `bufferToStream` from `uploadCatalogImageOrThrow`: a readable stream
that yields exactly the buffer's bytes. -/
def bufferToStream (buffer : List Nat) : List Nat := buffer

/-- The `imageData` object of a catalog image. -/
structure CatalogImageData where
  caption : Option String
deriving DecidableEq

/-- The `image` object sent by `createCatalogImage`. -/
structure CatalogImageObject where
  type : String
  id : String
  imageData : CatalogImageData
deriving DecidableEq

/-- The body of `catalogApi.createCatalogImage`. -/
structure CreateCatalogImageRequest where
  idempotencyKey : String
  objectId : Option String
  image : CatalogImageObject
deriving DecidableEq

/-- `NestSquareService.uploadCatalogImageOrThrow`: wraps the file, sends one
`createCatalogImage` SDK call (abstract parameter `createCatalogImage`)
under the retry wrapper, and returns `response.result`. -/
def NestSquareService.uploadCatalogImageOrThrow {R : Type} (svc : NestSquareService)
    (createCatalogImage : Client → CreateCatalogImageRequest → FileWrapper → Nat →
      Except SquareError (ApiResponse R))
    (accessToken : String) (idempotencyKey : String) (id : String)
    (objectId : Option String) (file : NestSquareFile) (caption : Option String) :
    Except ThrownError R × NestSquareService :=
  let fileStream := bufferToStream file.buffer
  let fileWrapper : FileWrapper := { stream := fileStream, contentType := file.mimetype }
  let response := pRetryOrThrow (fun attempt =>
    createCatalogImage (svc.client (some accessToken)).1
      { idempotencyKey := idempotencyKey,
        objectId := objectId,
        image := { type := "IMAGE", id := "#" ++ id, imageData := { caption := caption } } }
      fileWrapper attempt)
  (match response with
   | Except.ok r => Except.ok r.result
   | Except.error e => Except.error e,
   svc)

/-- The process environment restricted to the three variables the
configuration factory reads; `none` models an unset variable. -/
structure ProcessEnv where
  SQUARE_CLIENT_ENVIRONMENT : Option String
  SQUARE_OAUTH_CLIENT_ID : Option String
  SQUARE_OAUTH_CLIENT_SECRET : Option String
deriving DecidableEq

/-- `validateSync(plainToClass(SquareConfigValidator, process.env), {
skipMissingProperties: false })`: each of the three properties carries
`@IsString()`, which passes exactly when the variable is present (environment
values are always strings) and fails when it is missing.  Returns the list
of validation error messages, in declaration order of the validator class. -/
def squareConfigValidate (env : ProcessEnv) : List String :=
  (match env.SQUARE_OAUTH_CLIENT_ID with
   | some _ => []
   | none => ["SQUARE_OAUTH_CLIENT_ID must be a string"]) ++
  (match env.SQUARE_OAUTH_CLIENT_SECRET with
   | some _ => []
   | none => ["SQUARE_OAUTH_CLIENT_SECRET must be a string"]) ++
  (match env.SQUARE_CLIENT_ENVIRONMENT with
   | some _ => []
   | none => ["SQUARE_CLIENT_ENVIRONMENT must be a string"])

/-- The configuration factory registered as `NestSquareConfig`: validates the
environment and either throws (`Except.error`) the joined error messages or
returns the record built from the three variables (the non-null assertions of
the source are modelled by `Option.getD`, only reachable with the `some`
value once validation has passed). -/
def NestSquareConfig (env : ProcessEnv) : Except String NestSquareConfigType :=
  let errors := squareConfigValidate env
  if errors.length > 0 then
    Except.error (String.intercalate "," errors)
  else
    Except.ok
      { clientEnvironment := env.SQUARE_CLIENT_ENVIRONMENT.getD "",
        oauthClientId := env.SQUARE_OAUTH_CLIENT_ID.getD "",
        oauthClientSecret := env.SQUARE_OAUTH_CLIENT_SECRET.getD "" }

/-! ## Spec-side helper definitions -/

/-- Whether an error is classified retryable by the policy: a vendor
`ApiError` with status `≥ 500` or `= 429`. -/
def isRetryableError : SquareError → Bool
  | SquareError.api statusCode _ =>
    decide (HttpStatus_INTERNAL_SERVER_ERROR ≤ statusCode) ||
      statusCode == HttpStatus_TOO_MANY_REQUESTS
  | SquareError.other _ => false

/-- What a non-retryable failure makes `pRetryOrThrow` throw at once: an
`InternalServerErrorException` wrapper for a vendor `ApiError`, the error
itself unchanged otherwise. -/
def nonRetryableThrow : SquareError → ThrownError
  | SquareError.api statusCode body =>
    ThrownError.internalServerError (SquareError.api statusCode body)
  | SquareError.other message => ThrownError.raw (SquareError.other message)

/-- Attempt `m` of `fn` fails with a retryable vendor `ApiError`. -/
def failsRetryably {α : Type} (fn : Nat → Except SquareError α) (m : Nat) : Prop :=
  ∃ s b, fn m = Except.error (SquareError.api s b) ∧
    isRetryableError (SquareError.api s b) = true

/-! ## Retry policy lemmas -/

lemma onFailedAttempt_nonretryable (e : SquareError) (rl : Nat)
    (h : isRetryableError e = false) :
    onFailedAttempt e rl = some (nonRetryableThrow e) := by
  cases e with
  | api s b =>
    simp only [isRetryableError] at h
    simp [onFailedAttempt, nonRetryableThrow, h]
  | other msg => simp [onFailedAttempt, nonRetryableThrow]

lemma onFailedAttempt_retryable (s : Nat) (b : String) (rl : Nat)
    (h : isRetryableError (SquareError.api s b) = true) (hrl : rl ≠ 0) :
    onFailedAttempt (SquareError.api s b) rl = none := by
  simp only [isRetryableError] at h
  simp [onFailedAttempt, h, hrl]

lemma onFailedAttempt_zero (s : Nat) (b : String) :
    onFailedAttempt (SquareError.api s b) 0 =
      some (ThrownError.internalServerError (SquareError.api s b)) := by
  simp [onFailedAttempt]

/-- One retryable failed attempt with retries remaining moves the loop to
the next attempt. -/
lemma pRetryGo_step {α : Type} (fn : Nat → Except SquareError α) (a rl s : Nat) (b : String)
    (hfail : fn a = Except.error (SquareError.api s b))
    (hret : isRetryableError (SquareError.api s b) = true) (hrl : rl ≠ 0) :
    pRetryGo fn a rl = pRetryGo fn (a + 1) (rl - 1) := by
  obtain ⟨r, rfl⟩ : ∃ r, rl = r + 1 :=
    ⟨rl - 1, (Nat.succ_pred_eq_of_pos (Nat.pos_of_ne_zero hrl)).symm⟩
  conv_lhs => rw [pRetryGo]
  simp only [hfail, onFailedAttempt_retryable s b (r + 1) hret (Nat.succ_ne_zero r),
    Nat.add_sub_cancel]

/-- When attempts `1, …, n-1` all fail retryably, the run reaches attempt
`n` with `retriesLeft = retries + 1 - n`. -/
lemma pRetryOrThrow_reach {α : Type} (fn : Nat → Except SquareError α) (n : Nat)
    (h1 : 1 ≤ n) (h2 : n ≤ pRetryRetries + 1)
    (hprev : ∀ m, 1 ≤ m → m < n → failsRetryably fn m) :
    pRetryOrThrow fn = pRetryGo fn n (pRetryRetries + 1 - n) := by
  revert h2 hprev
  induction n, h1 using Nat.le_induction with
  | base => intro h2 hprev; rfl
  | succ n hn ih =>
    intro h2 hprev
    have step := ih (by omega) (fun m hm1 hm2 => hprev m hm1 (by omega))
    obtain ⟨s, b, hfail, hret⟩ := hprev n hn (by omega)
    rw [step, pRetryGo_step fn n (pRetryRetries + 1 - n) s b hfail hret (by omega)]
    have harith : pRetryRetries + 1 - n - 1 = pRetryRetries + 1 - (n + 1) := by omega
    rw [harith]

/-- Claim C1: a failed attempt of `pRetryOrThrow` is retried only when the
error is a vendor `ApiError` with `statusCode ≥ 500` or `= 429`; a failure
not satisfying this condition causes an immediate throw, regardless of how
the wrapped function would behave on any later attempt. -/
theorem pRetryOrThrow_retries_only_on_retryable {α : Type}
    (fn : Nat → Except SquareError α) (n : Nat) (e : SquareError)
    (h1 : 1 ≤ n) (h2 : n ≤ pRetryRetries + 1)
    (hprev : ∀ m, 1 ≤ m → m < n → failsRetryably fn m)
    (hn : fn n = Except.error e) (hnr : isRetryableError e = false) :
    pRetryOrThrow fn = Except.error (nonRetryableThrow e) := by
  rw [pRetryOrThrow_reach fn n h1 h2 hprev]
  simp only [pRetryGo, hn, onFailedAttempt_nonretryable e _ hnr]

def fnC1 : Nat → Except SquareError Nat := fun _ =>
  Except.error (SquareError.api 404 "Not Found")

theorem pRetryOrThrow_retries_only_on_retryable_witness :
    pRetryOrThrow fnC1 = Except.error (nonRetryableThrow (SquareError.api 404 "Not Found")) :=
  pRetryOrThrow_retries_only_on_retryable fnC1 1 (SquareError.api 404 "Not Found")
    (by decide) (by decide) (fun m hm1 hm2 => absurd hm1 (by omega)) rfl (by decide)

/-- Claim C2: when a vendor `ApiError` is non-retryable, or retries are
exhausted (`retriesLeft = 0`, i.e. the error is raised at the last
attempt), `pRetryOrThrow` throws an `InternalServerErrorException` wrapping
the original error — wherever in the attempt sequence the error arises. -/
theorem pRetryOrThrow_wraps_api_errors {α : Type}
    (fn : Nat → Except SquareError α) (n s : Nat) (b : String)
    (h1 : 1 ≤ n) (h2 : n ≤ pRetryRetries + 1)
    (hprev : ∀ m, 1 ≤ m → m < n → failsRetryably fn m)
    (hn : fn n = Except.error (SquareError.api s b))
    (hcond : isRetryableError (SquareError.api s b) = false ∨ pRetryRetries - (n - 1) = 0) :
    pRetryOrThrow fn =
      Except.error (ThrownError.internalServerError (SquareError.api s b)) := by
  rw [pRetryOrThrow_reach fn n h1 h2 hprev]
  rcases hcond with hnr | hzero
  · simp only [pRetryGo, hn, onFailedAttempt_nonretryable _ _ hnr, nonRetryableThrow]
  · have hz : pRetryRetries + 1 - n = 0 := by omega
    rw [hz]
    simp only [pRetryGo, hn, onFailedAttempt_zero]

def fnC2 : Nat → Except SquareError Nat := fun _ =>
  Except.error (SquareError.api 503 "Service Unavailable")

theorem pRetryOrThrow_wraps_api_errors_witness :
    pRetryOrThrow fnC2 =
      Except.error (ThrownError.internalServerError (SquareError.api 503 "Service Unavailable")) :=
  pRetryOrThrow_wraps_api_errors fnC2 11 503 "Service Unavailable"
    (by decide) (by decide)
    (fun m hm1 hm2 => ⟨503, "Service Unavailable", rfl, by decide⟩)
    rfl (Or.inr (by decide))

/-- Claim C9: a failure that is not a vendor `ApiError` is rethrown
unchanged — not wrapped in `InternalServerErrorException` — and no retry
attempt is made for it (the behaviour of the wrapped function at later
attempts is irrelevant). -/
theorem pRetryOrThrow_rethrows_non_api {α : Type}
    (fn : Nat → Except SquareError α) (n : Nat) (msg : String)
    (h1 : 1 ≤ n) (h2 : n ≤ pRetryRetries + 1)
    (hprev : ∀ m, 1 ≤ m → m < n → failsRetryably fn m)
    (hn : fn n = Except.error (SquareError.other msg)) :
    pRetryOrThrow fn = Except.error (ThrownError.raw (SquareError.other msg)) := by
  rw [pRetryOrThrow_reach fn n h1 h2 hprev]
  simp only [pRetryGo, hn, onFailedAttempt]

def fnC9 : Nat → Except SquareError Nat := fun a =>
  if a = 1 then Except.error (SquareError.api 500 "transient")
  else Except.error (SquareError.other "network down")

theorem pRetryOrThrow_rethrows_non_api_witness :
    pRetryOrThrow fnC9 = Except.error (ThrownError.raw (SquareError.other "network down")) := by
  apply pRetryOrThrow_rethrows_non_api fnC9 2 "network down" (by decide) (by decide)
  · intro m hm1 hm2
    have hm : m = 1 := by omega
    subst hm
    exact ⟨500, "transient", rfl, by decide⟩
  · rfl

/-! ## Catalog pagination: spec-side definitions and lemmas -/

/-- The cursor the service passes on its `i`-th `listCatalog` call, as the
claim describes it: `undefined` for the first call, the previous response's
cursor afterwards. -/
def catalogRequestCursor {γ : Type} (pages : Nat → ListCatalogPage γ) : Nat → Option String
  | 0 => none
  | i + 1 => (pages i).cursor

/-- The requests the claim predicts, calls `0, …, n-1`. -/
def specRequests {γ : Type} (pages : Nat → ListCatalogPage γ) (t : String) (n : Nat) :
    List CatalogRequest :=
  (List.range n).map (fun i => { cursor := catalogRequestCursor pages i, types := t })

/-- The objects the claim predicts: the concatenation, in page order, of the
`objects` arrays of pages `0, …, n-1` (a missing array counts as empty). -/
def specObjects {γ : Type} (pages : Nat → ListCatalogPage γ) (n : Nat) : List γ :=
  (List.range n).flatMap (fun i => (pages i).objects.getD [])

/-- Requests issued by the loop from call `p + 1` on, for `d` further calls. -/
def tailRequests {γ : Type} (pages : Nat → ListCatalogPage γ) (t : String) :
    Nat → Nat → List CatalogRequest
  | _, 0 => []
  | p, d + 1 =>
    { cursor := (pages p).cursor, types := t } :: tailRequests pages t (p + 1) d

/-- Objects gathered by the loop from call `p + 1` on, for `d` further calls
(pages `p + 1, …, p + d`). -/
def tailObjects {γ : Type} (pages : Nat → ListCatalogPage γ) : Nat → Nat → List γ
  | _, 0 => []
  | p, d + 1 => (pages (p + 1)).objects.getD [] ++ tailObjects pages (p + 1) d

lemma pRetryOrThrow_first_ok {α : Type} (x : α) (fn : Nat → Except SquareError α)
    (h : fn 1 = Except.ok x) : pRetryOrThrow fn = Except.ok x := by
  conv_lhs => rw [pRetryOrThrow, pRetryGo]
  simp [h]

lemma tailRequests_eq_range {γ : Type} (pages : Nat → ListCatalogPage γ) (t : String) :
    ∀ d p, tailRequests pages t p d
      = (List.range d).map (fun k => { cursor := (pages (p + k)).cursor, types := t }) := by
  intro d
  induction d with
  | zero => intro p; simp [tailRequests]
  | succ d ih =>
    intro p
    rw [tailRequests, ih (p + 1), List.range_succ_eq_map, List.map_cons, List.map_map]
    have hfun : (fun k => ({ cursor := (pages (p + 1 + k)).cursor, types := t } : CatalogRequest))
        = ((fun k => ({ cursor := (pages (p + k)).cursor, types := t } : CatalogRequest)) ∘ Nat.succ) := by
      funext k
      have hx : p + 1 + k = p + Nat.succ k := by omega
      simp only [Function.comp]
      rw [hx]
    rw [hfun]
    simp

lemma tailObjects_eq_range {γ : Type} (pages : Nat → ListCatalogPage γ) :
    ∀ d p, tailObjects pages p d
      = (List.range d).flatMap (fun k => (pages (p + 1 + k)).objects.getD []) := by
  intro d
  induction d with
  | zero => intro p; simp [tailObjects]
  | succ d ih =>
    intro p
    rw [tailObjects, ih (p + 1), List.range_succ_eq_map, List.flatMap_cons, List.flatMap_map]
    have hfun : (fun k => (pages (p + 1 + 1 + k)).objects.getD [])
        = (fun a => (pages (p + 1 + Nat.succ a)).objects.getD []) := by
      funext k
      have hx : p + 1 + 1 + k = p + 1 + Nat.succ k := by omega
      rw [hx]
    rw [hfun]

/-- The loop invariant on successful streams: starting the loop after page
`p` with `d` pages left before the first undefined cursor, it returns the
ghost log and accumulator extended by exactly those `d` calls. -/
lemma accumulateCatalogGo_stream {γ : Type} (pages : Nat → ListCatalogPage γ) (t : String)
    (n : Nat) (hn : (pages n).cursor = none) :
    ∀ d fuel p acc reqs, p + d = n → d ≤ fuel →
      (∀ m, m < n → (pages m).cursor ≠ none) →
      accumulateCatalogGo (fun i c ty a => Except.ok (pages i)) t fuel (p + 1)
          ((pages p).cursor) acc reqs
        = some (Except.ok (reqs ++ tailRequests pages t p d, acc ++ tailObjects pages p d)) := by
  intro d
  induction d with
  | zero =>
    intro fuel p acc reqs hpd hdf hmin
    have hp : p = n := by omega
    subst hp
    rw [hn]
    simp [accumulateCatalogGo, tailRequests, tailObjects]
  | succ d ih =>
    intro fuel p acc reqs hpd hdf hmin
    obtain ⟨c, hc⟩ : ∃ c, (pages p).cursor = some c := by
      cases hcur : (pages p).cursor with
      | none => exact absurd hcur (hmin p (by omega))
      | some c => exact ⟨c, rfl⟩
    obtain ⟨f, rfl⟩ : ∃ f, fuel = f + 1 := ⟨fuel - 1, by omega⟩
    rw [hc]
    rw [accumulateCatalogGo]
    rw [pRetryOrThrow_first_ok (pages (p + 1)) _ rfl]
    dsimp only
    rw [ih f (p + 1) _ _ (by omega) (by omega) hmin]
    rw [tailRequests, tailObjects, hc]
    simp [List.append_assoc]

/-- The loop invariant on streams with no undefined cursor in reach: the
fuel runs out and the loop does not terminate. -/
lemma accumulateCatalogGo_no_end {γ : Type} (pages : Nat → ListCatalogPage γ) (t : String) :
    ∀ fuel p acc reqs, (∀ k, k ≤ fuel → (pages (p + k)).cursor ≠ none) →
      accumulateCatalogGo (fun i c ty a => Except.ok (pages i)) t fuel (p + 1)
          ((pages p).cursor) acc reqs = none := by
  intro fuel
  induction fuel with
  | zero =>
    intro p acc reqs h
    obtain ⟨c, hc⟩ : ∃ c, (pages p).cursor = some c := by
      cases hcur : (pages p).cursor with
      | none =>
        have h0 := h 0 (by omega)
        rw [Nat.add_zero] at h0
        exact absurd hcur h0
      | some c => exact ⟨c, rfl⟩
    rw [hc]
    rw [accumulateCatalogGo]
  | succ f ih =>
    intro p acc reqs h
    obtain ⟨c, hc⟩ : ∃ c, (pages p).cursor = some c := by
      cases hcur : (pages p).cursor with
      | none =>
        have h0 := h 0 (by omega)
        rw [Nat.add_zero] at h0
        exact absurd hcur h0
      | some c => exact ⟨c, rfl⟩
    rw [hc]
    rw [accumulateCatalogGo]
    rw [pRetryOrThrow_first_ok (pages (p + 1)) _ rfl]
    apply ih (p + 1)
    intro k hk
    have hpk : p + 1 + k = p + (k + 1) := by omega
    rw [hpk]
    exact h (k + 1) (by omega)

lemma specRequests_decomp {γ : Type} (pages : Nat → ListCatalogPage γ) (t : String) (n : Nat) :
    specRequests pages t (n + 1)
      = { cursor := none, types := t } :: tailRequests pages t 0 n := by
  rw [specRequests, List.range_succ_eq_map, List.map_cons, List.map_map,
    tailRequests_eq_range pages t n 0]
  have hfun : ((fun i => ({ cursor := catalogRequestCursor pages i, types := t } : CatalogRequest))
        ∘ Nat.succ)
      = (fun k => ({ cursor := (pages (0 + k)).cursor, types := t } : CatalogRequest)) := by
    funext k
    simp [Function.comp, catalogRequestCursor, Nat.zero_add]
  rw [hfun]
  simp [catalogRequestCursor]

lemma specObjects_decomp {γ : Type} (pages : Nat → ListCatalogPage γ) (n : Nat) :
    specObjects pages (n + 1)
      = (pages 0).objects.getD [] ++ tailObjects pages 0 n := by
  rw [specObjects, List.range_succ_eq_map, List.flatMap_cons, List.flatMap_map,
    tailObjects_eq_range pages n 0]
  have hfun : (fun a => (fun i => (pages i).objects.getD []) (Nat.succ a))
      = (fun k => (pages (0 + 1 + k)).objects.getD []) := by
    funext k
    have hx : Nat.succ k = 0 + 1 + k := by omega
    simp only []
    rw [hx]
  rw [hfun]

/-- Shared computation: on a stream of successful pages whose first
undefined cursor is at page `n`, with fuel for at least `n` loop
iterations, `accumulateCatalogOrThrow` returns the predicted request log
and object concatenation for pages `0, …, n`. -/
lemma accumulateCatalog_run {γ : Type} (svc : NestSquareService)
    (pages : Nat → ListCatalogPage γ) (accessToken : String) (types : List String)
    (n fuel : Nat) (hn : (pages n).cursor = none)
    (hmin : ∀ m, m < n → (pages m).cursor ≠ none) (hfuel : n ≤ fuel) :
    (svc.accumulateCatalogOrThrow (fun cl i c t a => Except.ok (pages i))
        accessToken types fuel).1
      = some (Except.ok (specRequests pages (String.intercalate "," types) (n + 1),
          specObjects pages (n + 1))) := by
  rw [NestSquareService.accumulateCatalogOrThrow]
  dsimp only
  rw [pRetryOrThrow_first_ok (pages 0) _ rfl]
  dsimp only
  have hgo := accumulateCatalogGo_stream pages (String.intercalate "," types) n hn n fuel 0
    ((pages 0).objects.getD [])
    [{ cursor := none, types := String.intercalate "," types }]
    (by omega) hfuel hmin
  rw [Nat.zero_add] at hgo
  rw [hgo, specRequests_decomp, specObjects_decomp]
  simp

/-- Claim C3: the pagination loop of `accumulateCatalogOrThrow` terminates
exactly when a `listCatalog` response carries an undefined cursor.  First
conjunct: if page `n` is the first with an undefined cursor, the operation
terminates (given fuel for its `n` loop iterations) after consuming pages
`0, …, n`, having issued a further request for each of the `n` defined
cursors (`n + 1` requests in all).  Second conjunct: while every response
within reach of the fuel carries a defined cursor, the loop keeps issuing
requests and does not terminate. -/
theorem accumulateCatalog_terminates_iff_cursor_none {γ : Type} :
    (∀ (svc : NestSquareService) (pages : Nat → ListCatalogPage γ) (accessToken : String)
        (types : List String) (n fuel : Nat),
        (pages n).cursor = none → (∀ m, m < n → (pages m).cursor ≠ none) → n ≤ fuel →
        ∃ r, (svc.accumulateCatalogOrThrow (fun cl i c t a => Except.ok (pages i))
            accessToken types fuel).1 = some (Except.ok r) ∧ r.1.length = n + 1)
    ∧ (∀ (svc : NestSquareService) (pages : Nat → ListCatalogPage γ) (accessToken : String)
        (types : List String) (fuel : Nat),
        (∀ m, m ≤ fuel → (pages m).cursor ≠ none) →
        (svc.accumulateCatalogOrThrow (fun cl i c t a => Except.ok (pages i))
            accessToken types fuel).1 = none) := by
  constructor
  · intro svc pages accessToken types n fuel hn hmin hfuel
    refine ⟨(specRequests pages (String.intercalate "," types) (n + 1),
        specObjects pages (n + 1)),
      accumulateCatalog_run svc pages accessToken types n fuel hn hmin hfuel, ?_⟩
    simp [specRequests]
  · intro svc pages accessToken types fuel h
    rw [NestSquareService.accumulateCatalogOrThrow]
    dsimp only
    rw [pRetryOrThrow_first_ok (pages 0) _ rfl]
    dsimp only
    have hgo := accumulateCatalogGo_no_end pages (String.intercalate "," types) fuel 0
      ((pages 0).objects.getD [])
      [{ cursor := none, types := String.intercalate "," types }]
      (fun k hk => by
        have := h k hk
        simpa using this)
    rw [Nat.zero_add] at hgo
    rw [hgo]

def svcC34 : NestSquareService :=
  { config := { clientEnvironment := "sandbox", oauthClientId := "id",
                oauthClientSecret := "secret" } }

def pagesC34 : Nat → ListCatalogPage String := fun i =>
  if i = 0 then { objects := some ["a", "b"], cursor := some "c1" }
  else { objects := some ["d"], cursor := none }

def pagesNoEnd : Nat → ListCatalogPage String := fun _ =>
  { objects := some [], cursor := some "x" }

theorem accumulateCatalog_terminates_iff_cursor_none_witness :
    (∃ r, (svcC34.accumulateCatalogOrThrow (fun cl i c t a => Except.ok (pagesC34 i))
        "tok" ["ITEM", "CATEGORY"] 3).1 = some (Except.ok r) ∧ r.1.length = 2)
    ∧ (svcC34.accumulateCatalogOrThrow (fun cl i c t a => Except.ok (pagesNoEnd i))
        "tok" ["ITEM"] 2).1 = none := by
  constructor
  · exact accumulateCatalog_terminates_iff_cursor_none.1 svcC34 pagesC34 "tok"
      ["ITEM", "CATEGORY"] 1 3 (by decide) (by decide) (by decide)
  · exact accumulateCatalog_terminates_iff_cursor_none.2 svcC34 pagesNoEnd "tok"
      ["ITEM"] 2 (by decide)

/-- Claim C4: for every access token, list of catalog object types and
stream of page responses whose first undefined cursor is at page `n`,
`accumulateCatalogOrThrow` returns the concatenation, in page order, of the
`objects` arrays of pages `0, …, n`, while requesting page `0` with an
undefined cursor, each later page with the previous response's cursor, and
passing the comma-joined types string on every request. -/
theorem accumulateCatalog_concatenates {γ : Type} (svc : NestSquareService)
    (pages : Nat → ListCatalogPage γ) (accessToken : String) (types : List String)
    (n fuel : Nat) (hn : (pages n).cursor = none)
    (hmin : ∀ m, m < n → (pages m).cursor ≠ none) (hfuel : n ≤ fuel) :
    (svc.accumulateCatalogOrThrow (fun cl i c t a => Except.ok (pages i))
        accessToken types fuel).1
      = some (Except.ok (specRequests pages (String.intercalate "," types) (n + 1),
          specObjects pages (n + 1))) :=
  accumulateCatalog_run svc pages accessToken types n fuel hn hmin hfuel

theorem accumulateCatalog_concatenates_witness :
    (svcC34.accumulateCatalogOrThrow (fun cl i c t a => Except.ok (pagesC34 i))
        "tok" ["ITEM", "CATEGORY"] 3).1
      = some (Except.ok (specRequests pagesC34 (String.intercalate "," ["ITEM", "CATEGORY"]) 2,
          specObjects pagesC34 2)) :=
  accumulateCatalog_concatenates svcC34 pagesC34 "tok" ["ITEM", "CATEGORY"] 1 3
    (by decide) (by decide) (by decide)

/-! ## OAuth token claims -/

/-- Claim C7: `retryObtainTokenOrThrow` is exactly one `obtainToken` SDK
call under the retry wrapper, with grant type `authorization_code`, the
caller's code and the configured OAuth client id and secret; and
`retryRefreshTokenOrThrow` is exactly one `obtainToken` call under the
wrapper with grant type `refresh_token` and the caller's refresh token. -/
theorem retryTokenOperations_forward {R : Type} (svc : NestSquareService)
    (obtainToken : Client → ObtainTokenRequest → Nat → Except SquareError (ApiResponse R))
    (code refreshToken : String) :
    (svc.retryObtainTokenOrThrow obtainToken code).1
      = pRetryOrThrow (fun attempt =>
          obtainToken { accessToken := none, environment := svc.config.clientEnvironment }
            { clientId := svc.config.oauthClientId,
              clientSecret := svc.config.oauthClientSecret,
              grantType := "authorization_code",
              code := some code,
              refreshToken := none } attempt)
    ∧ (svc.retryRefreshTokenOrThrow obtainToken refreshToken).1
      = pRetryOrThrow (fun attempt =>
          obtainToken { accessToken := none, environment := svc.config.clientEnvironment }
            { clientId := svc.config.oauthClientId,
              clientSecret := svc.config.oauthClientSecret,
              grantType := "refresh_token",
              code := none,
              refreshToken := some refreshToken } attempt) :=
  ⟨rfl, rfl⟩

/-! ## Configuration frame claim -/

/-- Claim C8: none of the public operations mutates the injected
configuration record: each returns the service with its `clientEnvironment`,
`oauthClientId` and `oauthClientSecret` unchanged. -/
theorem config_never_mutated {α γ R S : Type} (svc : NestSquareService)
    (accessTokenOpt : Option String) (accessToken : String)
    (clientFn : Client → Nat → Except SquareError α)
    (obtainToken : Client → ObtainTokenRequest → Nat → Except SquareError (ApiResponse R))
    (code refreshToken : String)
    (listCatalog : Client → Nat → Option String → String → Nat →
      Except SquareError (ListCatalogPage γ))
    (types : List String) (fuel : Nat)
    (createCatalogImage : Client → CreateCatalogImageRequest → FileWrapper → Nat →
      Except SquareError (ApiResponse S))
    (idempotencyKey : String) (id : String) (objectId : Option String)
    (file : NestSquareFile) (caption : Option String) :
    (svc.client accessTokenOpt).2.config = svc.config
    ∧ (svc.retryOrThrow accessToken clientFn).2.config = svc.config
    ∧ (svc.retryObtainTokenOrThrow obtainToken code).2.config = svc.config
    ∧ (svc.retryRefreshTokenOrThrow obtainToken refreshToken).2.config = svc.config
    ∧ (svc.accumulateCatalogOrThrow listCatalog accessToken types fuel).2.config = svc.config
    ∧ (svc.uploadCatalogImageOrThrow createCatalogImage accessToken idempotencyKey id
        objectId file caption).2.config = svc.config :=
  ⟨rfl, rfl, rfl, rfl, rfl, rfl⟩

/-! ## Image upload claim -/

/-- Claim C10: `uploadCatalogImageOrThrow` sends the catalog image request
with image id `"#"` prepended to the caller's id, image type `"IMAGE"`, the
given caption and idempotency key, and returns only the `result` field of
the API response rather than the full envelope. -/
theorem uploadCatalogImage_request_and_result {R : Type} (svc : NestSquareService)
    (createCatalogImage : Client → CreateCatalogImageRequest → FileWrapper → Nat →
      Except SquareError (ApiResponse R))
    (accessToken : String) (idempotencyKey : String) (id : String)
    (objectId : Option String) (file : NestSquareFile) (caption : Option String) :
    (svc.uploadCatalogImageOrThrow createCatalogImage accessToken idempotencyKey id
        objectId file caption).1
      = Except.map ApiResponse.result (pRetryOrThrow (fun attempt =>
          createCatalogImage
            { accessToken := some accessToken, environment := svc.config.clientEnvironment }
            { idempotencyKey := idempotencyKey,
              objectId := objectId,
              image := { type := "IMAGE", id := "#" ++ id,
                         imageData := { caption := caption } } }
            { stream := file.buffer, contentType := file.mimetype } attempt)) := by
  cases hr : pRetryOrThrow (fun attempt =>
      createCatalogImage
        { accessToken := some accessToken, environment := svc.config.clientEnvironment }
        { idempotencyKey := idempotencyKey,
          objectId := objectId,
          image := { type := "IMAGE", id := "#" ++ id,
                     imageData := { caption := caption } } }
        { stream := file.buffer, contentType := file.mimetype } attempt) with
  | ok r =>
    simp [NestSquareService.uploadCatalogImageOrThrow, NestSquareService.client,
      bufferToStream, hr, Except.map]
  | error e =>
    simp [NestSquareService.uploadCatalogImageOrThrow, NestSquareService.client,
      bufferToStream, hr, Except.map]

/-! ## Configuration factory claims -/

/-- Claim C5: the configuration factory throws when any of the three
environment variables is missing, and when all three are present it returns
the record built from exactly those variables. -/
theorem nestSquareConfig_validates_env :
    (∀ env : ProcessEnv,
        (env.SQUARE_CLIENT_ENVIRONMENT = none ∨ env.SQUARE_OAUTH_CLIENT_ID = none ∨
          env.SQUARE_OAUTH_CLIENT_SECRET = none) →
        ∃ msg, NestSquareConfig env = Except.error msg)
    ∧ (∀ a b c : String,
        NestSquareConfig
            { SQUARE_CLIENT_ENVIRONMENT := some a, SQUARE_OAUTH_CLIENT_ID := some b,
              SQUARE_OAUTH_CLIENT_SECRET := some c }
          = Except.ok { clientEnvironment := a, oauthClientId := b,
                        oauthClientSecret := c }) := by
  constructor
  · intro env h
    obtain ⟨e1, e2, e3⟩ := env
    cases e1 <;> cases e2 <;> cases e3 <;>
      simp_all [NestSquareConfig, squareConfigValidate]
  · intro a b c
    rfl

theorem nestSquareConfig_validates_env_witness :
    (∃ msg, NestSquareConfig
        { SQUARE_CLIENT_ENVIRONMENT := none, SQUARE_OAUTH_CLIENT_ID := some "id",
          SQUARE_OAUTH_CLIENT_SECRET := some "secret" } = Except.error msg)
    ∧ NestSquareConfig
        { SQUARE_CLIENT_ENVIRONMENT := some "production", SQUARE_OAUTH_CLIENT_ID := some "id",
          SQUARE_OAUTH_CLIENT_SECRET := some "secret" }
      = Except.ok { clientEnvironment := "production", oauthClientId := "id",
                    oauthClientSecret := "secret" } :=
  ⟨nestSquareConfig_validates_env.1 _ (Or.inl rfl),
   nestSquareConfig_validates_env.2 "production" "id" "secret"⟩

/-- Counterexample to claim C6 as stated: the validator checks only that
each variable is a string; the empty string is a string, so validation
accepts a configuration whose fields have length 0, not length at least
1. -/
theorem config_empty_strings_accepted :
    NestSquareConfig
        { SQUARE_CLIENT_ENVIRONMENT := some "", SQUARE_OAUTH_CLIENT_ID := some "",
          SQUARE_OAUTH_CLIENT_SECRET := some "" }
      = Except.ok { clientEnvironment := "", oauthClientId := "", oauthClientSecret := "" }
    ∧ ¬(1 ≤ ("" : String).length) :=
  ⟨rfl, by decide⟩

/-- Claim C6 amended: every configuration record accepted by the validation
consists of the three string values of the environment variables, each of
which was present in the environment; the validation imposes no lower bound
on their length. -/
theorem config_accepted_fields_from_env (env : ProcessEnv) (cfg : NestSquareConfigType)
    (h : NestSquareConfig env = Except.ok cfg) :
    env.SQUARE_CLIENT_ENVIRONMENT = some cfg.clientEnvironment
    ∧ env.SQUARE_OAUTH_CLIENT_ID = some cfg.oauthClientId
    ∧ env.SQUARE_OAUTH_CLIENT_SECRET = some cfg.oauthClientSecret := by
  obtain ⟨e1, e2, e3⟩ := env
  cases e1 <;> cases e2 <;> cases e3 <;>
    simp_all [NestSquareConfig, squareConfigValidate]
  subst h
  simp

def envC6 : ProcessEnv :=
  { SQUARE_CLIENT_ENVIRONMENT := some "production", SQUARE_OAUTH_CLIENT_ID := some "id",
    SQUARE_OAUTH_CLIENT_SECRET := some "secret" }

theorem config_accepted_fields_from_env_witness :
    envC6.SQUARE_CLIENT_ENVIRONMENT = some "production"
    ∧ envC6.SQUARE_OAUTH_CLIENT_ID = some "id"
    ∧ envC6.SQUARE_OAUTH_CLIENT_SECRET = some "secret" :=
  config_accepted_fields_from_env envC6
    { clientEnvironment := "production", oauthClientId := "id", oauthClientSecret := "secret" }
    rfl

end NestSquare
